import Mathlib

/-!
Shallow embedding of the CRUD device-driver client
(src/crud_file_io.c and src/crud_client.c).

Machine integers are modelled as Nat with explicit reductions modulo 2^w at
the points where the C types truncate.  The remote object store is external
to the sources, so every call to crud_client_operation is modelled by an
oracle response word (a raw 64-bit CrudResponse, decoded with
parse_CrudResponse exactly as the C does) and, for CRUD_READ, by the byte
list the store places in the caller's buffer.  The directory table is the
array crud_file_table; a single slot is a CrudFileAllocationType.
-/

namespace CrudDriver

/-- One slot of the file allocation table.  The struct CrudFileAllocationType
is declared in crud_file_io.h, which is not among the sources; its five
fields (filename, object_id, position, length, open) are modelled from their
uses in crud_file_io.c and from the spec's directory-entry description.
The C field named open is rendered openFlag, that word being reserved in
Lean. -/
structure CrudFileAllocationType where
  filename : String
  object_id : Nat
  position : Nat
  length : Nat
  openFlag : Bool
  deriving DecidableEq, Repr

/-- The CRParsed struct of crud_file_io.c: the five fields of a decoded
64-bit CrudRequest/CrudResponse word. -/
structure CRParsed where
  oID : Nat
  req : Nat
  length : Nat
  flags : Nat
  res : Nat
  deriving DecidableEq, Repr

/-- convert_to_CrudRequest (crud_file_io.c lines 76-98).  The C parameters
are uint32_t oID, uint8_t req, uint32_t length, uint8_t flags, uint8_t res;
the leading reductions model those parameter types.  The function then wipes
the extra bits of each field (length to 24 bits, req to 4, flags to 3, res
to 1) and ors the shifted fields into a 64-bit word. -/
def convert_to_CrudRequest (oID req length flags res : Nat) : Nat :=
  let oID := oID % 2 ^ 32
  let req := req % 2 ^ 8
  let length := length % 2 ^ 32
  let flags := flags % 2 ^ 8
  let res := res % 2 ^ 8
  -- bitWork = (~0u) >> 8 = 0xffffff; wipe extra bits of each parameter
  let length := length &&& 0xffffff
  let req := req &&& 15
  let flags := flags &&& 7
  let res := res &&& 1
  ((((oID <<< 32) ||| (req <<< 28)) ||| (length <<< 4)) ||| (flags <<< 1) ||| res) % 2 ^ 64

/-- parse_CrudResponse (crud_file_io.c lines 109-123): extract the five
fields of a 64-bit response word.  The cast of the top word to uint32_t is
the reduction modulo 2^32. -/
def parse_CrudResponse (parseThis : Nat) : CRParsed :=
  { oID := (parseThis >>> 32) % 2 ^ 32
    req := (parseThis >>> 28) &&& 15
    length := (parseThis >>> 4) &&& 0xffffff
    flags := (parseThis >>> 1) &&& 7
    res := parseThis &&& 1 }

/-- memcpy into a list at an offset: bytes [pos, pos + src.length) of dst are
replaced by src, everything else kept (the C memcpy into a buffer region). -/
def memcpyAt (dst : List Nat) (pos : Nat) (src : List Nat) : List Nat :=
  dst.take pos ++ src ++ dst.drop (pos + src.length)

/-- An object-store request issued through crud_client_operation during a
crud_write call, with the payload handed to the store where the request
carries one.  The numeric operation codes live in crud.h, outside the
sources; the constructors stand for CRUD_INIT, CRUD_READ, CRUD_CREATE,
CRUD_UPDATE and CRUD_DELETE. -/
inductive StoreOp where
  | initOp : StoreOp
  | readOp (oid len : Nat) : StoreOp
  | createOp (len : Nat) (payload : List Nat) : StoreOp
  | updateOp (oid len : Nat) (payload : List Nat) : StoreOp
  | deleteOp (oid : Nat) : StoreOp
  deriving DecidableEq, Repr

/-- A request issued by crud_unmount: the CRUD_UPDATE of the priority
(directory) object, carrying the file allocation table, or the final
CRUD_CLOSE. -/
inductive UnmountStep where
  | updateStep (table : List CrudFileAllocationType) : UnmountStep
  | closeStep : UnmountStep
  deriving DecidableEq, Repr

/-- The empty slot contents written by crud_format's reset loop
(crud_file_io.c lines 161-168). -/
def emptyEntry : CrudFileAllocationType :=
  { filename := "", object_id := 0, position := 0, length := 0, openFlag := false }

/-- crud_format (crud_file_io.c lines 134-182).  State: the InitFlag global
and the file allocation table.  Oracle inputs: the raw responses to the
CRUD_INIT (consulted only when the flag is clear), CRUD_FORMAT and
CRUD_CREATE requests.  Returns (return value, table after the call, InitFlag
after the call).  The C return type is uint16_t, so the -1 written in the
source is represented there as 65535; we keep the -1 of the source text. -/
def crud_format (initFlag : Bool) (initResp formatResp createResp : Nat)
    (table : List CrudFileAllocationType) :
    Int × List CrudFileAllocationType × Bool :=
  if initFlag = false ∧ (parse_CrudResponse initResp).res = 1 then
    (-1, table, initFlag)
  else if (parse_CrudResponse formatResp).res = 1 then (-1, table, true)
  else
    -- initialize file allocation table with zeros, then create the
    -- priority object holding it
    let resetTable := table.map fun _ => emptyEntry
    if (parse_CrudResponse createResp).res = 1 then (-1, resetTable, true)
    else (0, resetTable, true)

/-- crud_unmount (crud_file_io.c lines 231-257).  Checks InitFlag, then
issues CRUD_UPDATE of the priority object with the table as payload, then
CRUD_CLOSE.  Returns the return value and the requests issued. -/
def crud_unmount (initFlag : Bool) (table : List CrudFileAllocationType)
    (updateResp closeResp : Nat) : Int × List UnmountStep :=
  if initFlag = false then (-1, [])
  else if (parse_CrudResponse updateResp).res = 1 then
    (-1, [UnmountStep.updateStep table])
  else if (parse_CrudResponse closeResp).res = 1 then
    (-1, [UnmountStep.updateStep table, UnmountStep.closeStep])
  else (0, [UnmountStep.updateStep table, UnmountStep.closeStep])

/-- The second search loop of crud_open (crud_file_io.c lines 302-303):
while (strcmp(crud_file_table[fh].filename, "") != 0) fh++; -- this loop has
no bound, so when every slot of the table holds a non-empty name its guard
goes on to read crud_file_table[CRUD_MAX_TOTAL_FILES], one past the end of
the array; that out-of-bounds access is modelled as Except.error. -/
def findEmptySlotAux : List CrudFileAllocationType → Nat → Except Unit Nat
  | [], _ => Except.error ()
  | e :: rest, fh =>
    if e.filename = "" then Except.ok fh else findEmptySlotAux rest (fh + 1)

/-- crud_open (crud_file_io.c lines 267-331).  State: InitFlag and the
table; maxPathLength stands for CRUD_MAX_PATH_LENGTH (its value lives in the
missing header).  Returns Except.error on the out-of-bounds table access
described at findEmptySlotAux, otherwise (file handle or -1, table after the
call, InitFlag after the call). -/
def crud_open (initFlag : Bool) (initResp : Nat) (maxPathLength : Nat)
    (table : List CrudFileAllocationType) (path : String) :
    Except Unit (Int × List CrudFileAllocationType × Bool) :=
  if initFlag = false ∧ (parse_CrudResponse initResp).res = 1 then
    Except.ok (-1, table, initFlag)
  else if path.length > maxPathLength ∨ path.length = 0 then
    Except.ok (-1, table, true)
  else
    -- first loop: search for the filename in the table (bounded)
    let fh := table.findIdx fun e => e.filename = path
    if fh = table.length then
      -- file does not exist: claim the first empty slot (unbounded loop)
      match findEmptySlotAux table 0 with
      | Except.error _ => Except.error ()
      | Except.ok slot =>
        -- the full-table check of line 306; findEmptySlotAux only returns
        -- ok at an index inside the table, so it never fires on this path
        if slot = table.length then Except.ok (-1, table, true)
        else
          Except.ok (Int.ofNat slot,
            table.set slot
              { filename := path, object_id := 0, position := 0, length := 0,
                openFlag := true },
            true)
    else
      match table.get? fh with
      | none => Except.error ()
      | some e =>
        if e.openFlag = true then Except.ok (-1, table, true)
        else
          Except.ok (Int.ofNat fh,
            table.set fh { e with position := 0, openFlag := true }, true)

/-- crud_close (crud_file_io.c lines 341-366) acting on the slot that the
(valid) handle designates: clears the open flag only. -/
def crud_close (initFlag : Bool) (initResp : Nat)
    (entry : CrudFileAllocationType) : Int × CrudFileAllocationType :=
  if initFlag = false ∧ (parse_CrudResponse initResp).res = 1 then (-1, entry)
  else if entry.openFlag = false then (-1, entry)
  else (0, { entry with openFlag := false })

/-- crud_read (crud_file_io.c lines 379-437) acting on the slot that the
(valid) handle designates.  Oracle inputs: the raw response to the CRUD_READ
of the whole backing object and the byte list the store places in readBuf.
Returns (bytes read or -1, slot after the call, bytes copied to the caller's
buffer). -/
def crud_read (initFlag : Bool) (initResp : Nat)
    (entry : CrudFileAllocationType) (readResp : Nat) (contents : List Nat)
    (count : Int) : Int × CrudFileAllocationType × List Nat :=
  if initFlag = false ∧ (parse_CrudResponse initResp).res = 1 then
    (-1, entry, [])
  else if count < 0 then (-1, entry, [])
  else if entry.openFlag = false then (-1, entry, [])
  else if (parse_CrudResponse readResp).res = 1 then (-1, entry, [])
  else
    let c := count.toNat
    if c > entry.length - entry.position then
      -- read to end of file
      (Int.ofNat (entry.length - entry.position),
        { entry with position := entry.length },
        (contents.drop entry.position).take (entry.length - entry.position))
    else
      (Int.ofNat c, { entry with position := entry.position + c },
        (contents.drop entry.position).take c)

/-- crud_write (crud_file_io.c lines 448-567) acting on the slot that the
(valid) handle designates.  Oracle inputs: contents is the byte list the
store returns for the CRUD_READ of the existing object; the four raw
response words answer the CRUD_READ, CRUD_CREATE, CRUD_DELETE and
CRUD_UPDATE requests where the taken path issues them.  buf is none for a
NULL pointer.  Returns (bytes written or -1, slot after the call, requests
issued with their payloads). -/
def crud_write (initFlag : Bool) (initResp : Nat)
    (entry : CrudFileAllocationType) (contents : List Nat)
    (readResp createResp deleteResp updateResp : Nat)
    (buf : Option (List Nat)) (count : Int) :
    Int × CrudFileAllocationType × List StoreOp :=
  if initFlag = false ∧ (parse_CrudResponse initResp).res = 1 then
    (-1, entry, [StoreOp.initOp])
  else
    let ops0 : List StoreOp := if initFlag then [] else [StoreOp.initOp]
    match buf with
    | none => (-1, entry, ops0)
    | some b =>
      if count < 0 then (-1, entry, ops0)
      else if entry.openFlag = false then (-1, entry, ops0)
      else
        let c := count.toNat
        if entry.object_id = 0 then
          -- case 1: object does not yet exist; create it from buf
          let ops := ops0 ++ [StoreOp.createOp c (b.take c)]
          if (parse_CrudResponse createResp).res = 1 then (-1, entry, ops)
          else
            (count,
              { entry with object_id := (parse_CrudResponse createResp).oID,
                           length := c, position := c }, ops)
        else
          let ops1 := ops0 ++ [StoreOp.readOp entry.object_id entry.length]
          if (parse_CrudResponse readResp).res = 1 then (-1, entry, ops1)
          else if entry.position + c > entry.length then
            -- case 2: writing past the end; build the grown buffer
            -- (malloc of position+count bytes, old contents copied to the
            -- front, buf copied in at position), create the new object,
            -- delete the old one
            let newBuf :=
              memcpyAt
                (memcpyAt (List.replicate (entry.position + c) 0) 0
                  (contents.take entry.length))
                entry.position (b.take c)
            let ops2 := ops1 ++ [StoreOp.createOp (entry.position + c) newBuf]
            if (parse_CrudResponse createResp).res = 1 then (-1, entry, ops2)
            else
              let ops3 := ops2 ++ [StoreOp.deleteOp entry.object_id]
              if (parse_CrudResponse deleteResp).res = 1 then (-1, entry, ops3)
              else
                (count,
                  { entry with
                      object_id := (parse_CrudResponse createResp).oID,
                      length := entry.position + c,
                      position := entry.position + c }, ops3)
          else
            -- case 3: object not changing size; splice buf into the read
            -- contents at position and update in place
            let newBuf := memcpyAt contents entry.position (b.take c)
            let ops2 :=
              ops1 ++ [StoreOp.updateOp entry.object_id entry.length newBuf]
            if (parse_CrudResponse updateResp).res = 1 then (-1, entry, ops2)
            else
              (count, { entry with position := entry.position + c }, ops2)

/-- crud_seek (crud_file_io.c lines 578-605) acting on the slot that the
(valid) handle designates.  loc is uint32_t, so the loc < 0 test of the
source is vacuous. -/
def crud_seek (initFlag : Bool) (initResp : Nat)
    (entry : CrudFileAllocationType) (loc : Nat) :
    Int × CrudFileAllocationType :=
  if initFlag = false ∧ (parse_CrudResponse initResp).res = 1 then (-1, entry)
  else if entry.openFlag = false then (-1, entry)
  else if loc > entry.length then (-1, entry)
  else (0, { entry with position := loc })

/-! ### Arithmetic form of the codec -/

theorem and_fifteen_eq_mod (x : Nat) : x &&& 15 = x % 16 := by
  have h := Nat.and_pow_two_sub_one_eq_mod x 4
  norm_num at h
  exact h

theorem and_seven_eq_mod (x : Nat) : x &&& 7 = x % 8 := by
  have h := Nat.and_pow_two_sub_one_eq_mod x 3
  norm_num at h
  exact h

theorem and_mask24_eq_mod (x : Nat) : x &&& 0xffffff = x % 2 ^ 24 := by
  have h := Nat.and_pow_two_sub_one_eq_mod x 24
  norm_num at h
  norm_num
  exact h

/-- An or of a shifted value with a value fitting below the shift is a sum. -/
theorem shiftLeft_or_eq_add (x y n : Nat) (h : y < 2 ^ n) :
    (x <<< n) ||| y = x * 2 ^ n + y := by
  rw [Nat.shiftLeft_eq, Nat.mul_comm x (2 ^ n), ← Nat.mul_add_lt_is_or h x,
    Nat.mul_comm (2 ^ n) x]

/-- The encoded word, written as a positional sum of the five fields. -/
theorem convert_to_CrudRequest_eq_sum (oID req length flags res : Nat) :
    convert_to_CrudRequest oID req length flags res =
      (oID % 2 ^ 32) * 2 ^ 32 + (req % 16) * 2 ^ 28 +
        (length % 2 ^ 24) * 2 ^ 4 + (flags % 8) * 2 + res % 2 := by
  unfold convert_to_CrudRequest
  have hreq : req % 2 ^ 8 &&& 15 = req % 16 := by
    rw [and_fifteen_eq_mod]
    omega
  have hflags : flags % 2 ^ 8 &&& 7 = flags % 8 := by
    rw [and_seven_eq_mod]
    omega
  have hres : res % 2 ^ 8 &&& 1 = res % 2 := by
    rw [Nat.and_one_is_mod]
    omega
  have hlen : length % 2 ^ 32 &&& 0xffffff = length % 2 ^ 24 := by
    rw [and_mask24_eq_mod]
    omega
  simp only [hreq, hflags, hres, hlen]
  set a := oID % 2 ^ 32 with ha
  set b := req % 16 with hb
  set l := length % 2 ^ 24 with hl
  set f := flags % 8 with hf
  set r := res % 2 with hr
  have hab : a < 2 ^ 32 := Nat.mod_lt _ (by norm_num)
  have hbb : b < 16 := Nat.mod_lt _ (by norm_num)
  have hlb : l < 2 ^ 24 := Nat.mod_lt _ (by norm_num)
  have hfb : f < 8 := Nat.mod_lt _ (by norm_num)
  have hrb : r < 2 := Nat.mod_lt _ (by norm_num)
  have h1 : (a <<< 32) ||| (b <<< 28) = a * 2 ^ 32 + b * 2 ^ 28 := by
    have hlt : b <<< 28 < 2 ^ 32 := by
      rw [Nat.shiftLeft_eq]
      norm_num
      omega
    rw [shiftLeft_or_eq_add _ _ _ hlt, Nat.shiftLeft_eq]
  have h2 : (a * 2 ^ 32 + b * 2 ^ 28) ||| (l <<< 4) =
      a * 2 ^ 32 + b * 2 ^ 28 + l * 2 ^ 4 := by
    have hlt : l * 2 ^ 4 < 2 ^ 28 := by
      norm_num
      omega
    calc (a * 2 ^ 32 + b * 2 ^ 28) ||| (l <<< 4)
        = 2 ^ 28 * (a * 2 ^ 4 + b) ||| l * 2 ^ 4 := by
          rw [Nat.shiftLeft_eq]
          ring_nf
      _ = 2 ^ 28 * (a * 2 ^ 4 + b) + l * 2 ^ 4 :=
          (Nat.mul_add_lt_is_or hlt _).symm
      _ = a * 2 ^ 32 + b * 2 ^ 28 + l * 2 ^ 4 := by ring
  have h3 : (a * 2 ^ 32 + b * 2 ^ 28 + l * 2 ^ 4) ||| (f <<< 1) =
      a * 2 ^ 32 + b * 2 ^ 28 + l * 2 ^ 4 + f * 2 := by
    have hlt : f * 2 < 2 ^ 4 := by
      norm_num
      omega
    calc (a * 2 ^ 32 + b * 2 ^ 28 + l * 2 ^ 4) ||| (f <<< 1)
        = 2 ^ 4 * (a * 2 ^ 28 + b * 2 ^ 24 + l) ||| f * 2 := by
          rw [Nat.shiftLeft_eq]
          ring_nf
      _ = 2 ^ 4 * (a * 2 ^ 28 + b * 2 ^ 24 + l) + f * 2 :=
          (Nat.mul_add_lt_is_or hlt _).symm
      _ = a * 2 ^ 32 + b * 2 ^ 28 + l * 2 ^ 4 + f * 2 := by ring
  have h4 : (a * 2 ^ 32 + b * 2 ^ 28 + l * 2 ^ 4 + f * 2) ||| r =
      a * 2 ^ 32 + b * 2 ^ 28 + l * 2 ^ 4 + f * 2 + r := by
    have hlt : r < 2 ^ 1 := by omega
    calc (a * 2 ^ 32 + b * 2 ^ 28 + l * 2 ^ 4 + f * 2) ||| r
        = 2 ^ 1 * (a * 2 ^ 31 + b * 2 ^ 27 + l * 2 ^ 3 + f) ||| r := by
          ring_nf
      _ = 2 ^ 1 * (a * 2 ^ 31 + b * 2 ^ 27 + l * 2 ^ 3 + f) + r :=
          (Nat.mul_add_lt_is_or hlt _).symm
      _ = a * 2 ^ 32 + b * 2 ^ 28 + l * 2 ^ 4 + f * 2 + r := by ring
  rw [h1, h2, h3, h4, Nat.mod_eq_of_lt]
  have h64 : (2 : Nat) ^ 64 = 18446744073709551616 := by norm_num
  have h32 : (2 : Nat) ^ 32 = 4294967296 := by norm_num
  have h28 : (2 : Nat) ^ 28 = 268435456 := by norm_num
  have h24 : (2 : Nat) ^ 24 = 16777216 := by norm_num
  have h4' : (2 : Nat) ^ 4 = 16 := by norm_num
  rw [h64, h32, h28, h4']
  rw [h32] at hab
  rw [h24] at hlb
  omega

/-- Decoding the encoded word recovers each field reduced to its declared
width.  Shared basis for the round-trip and masking claims. -/
theorem parse_convert_general (oID req length flags res : Nat) :
    parse_CrudResponse (convert_to_CrudRequest oID req length flags res) =
      { oID := oID % 2 ^ 32
        req := req % 16
        length := length % 2 ^ 24
        flags := flags % 8
        res := res % 2 } := by
  rw [convert_to_CrudRequest_eq_sum]
  unfold parse_CrudResponse
  have hab : oID % 2 ^ 32 < 2 ^ 32 := Nat.mod_lt _ (by norm_num)
  have hbb : req % 16 < 16 := Nat.mod_lt _ (by norm_num)
  have hlb : length % 2 ^ 24 < 2 ^ 24 := Nat.mod_lt _ (by norm_num)
  have hfb : flags % 8 < 8 := Nat.mod_lt _ (by norm_num)
  have hrb : res % 2 < 2 := Nat.mod_lt _ (by norm_num)
  set a := oID % 2 ^ 32
  set b := req % 16
  set l := length % 2 ^ 24
  set f := flags % 8
  set r := res % 2
  simp only [CRParsed.mk.injEq, Nat.shiftRight_eq_div_pow, and_fifteen_eq_mod,
    and_seven_eq_mod, and_mask24_eq_mod, Nat.and_one_is_mod]
  have h32 : (2 : Nat) ^ 32 = 4294967296 := by norm_num
  have h28 : (2 : Nat) ^ 28 = 268435456 := by norm_num
  have h24 : (2 : Nat) ^ 24 = 16777216 := by norm_num
  have h4' : (2 : Nat) ^ 4 = 16 := by norm_num
  have h1' : (2 : Nat) ^ 1 = 2 := by norm_num
  rw [h32, h28, h24, h4', h1'] at *
  refine ⟨?_, ?_, ?_, ?_, ?_⟩ <;> omega

/-- C4: for field values within their declared ranges, decoding the encoded
64-bit descriptor reproduces the five inputs exactly. -/
theorem convert_parse_round_trip (oID req length flags res : Nat)
    (hoID : oID < 2 ^ 32) (hreq : req < 2 ^ 4) (hlength : length < 2 ^ 24)
    (hflags : flags < 2 ^ 3) (hres : res < 2 ^ 1) :
    parse_CrudResponse (convert_to_CrudRequest oID req length flags res) =
      { oID := oID, req := req, length := length, flags := flags, res := res } := by
  rw [parse_convert_general]
  simp only [CRParsed.mk.injEq]
  norm_num at hreq hflags hres
  refine ⟨Nat.mod_eq_of_lt hoID, Nat.mod_eq_of_lt (by omega),
    Nat.mod_eq_of_lt hlength, Nat.mod_eq_of_lt (by omega), Nat.mod_eq_of_lt (by omega)⟩

/-- Witness for C4 at a concrete in-range input. -/
theorem convert_parse_round_trip_witness :
    parse_CrudResponse (convert_to_CrudRequest 3735928559 9 777215 5 1) =
      { oID := 3735928559, req := 9, length := 777215, flags := 5, res := 1 } :=
  convert_parse_round_trip 3735928559 9 777215 5 1 (by norm_num) (by norm_num)
    (by norm_num) (by norm_num) (by norm_num)

/-- C9: for all inputs, including out-of-range ones, convert_to_CrudRequest
is total and silently truncates each field to its declared width: the length
field of the encoded word is length mod 2^24 (so length = 2^24 encodes as
0), the operation code is reduced mod 2^4, flags mod 2^3, and result mod 2
(so res = 2 encodes as 0). -/
theorem convert_to_CrudRequest_masks_fields (oID req length flags res : Nat) :
    parse_CrudResponse (convert_to_CrudRequest oID req length flags res) =
        { oID := oID % 2 ^ 32
          req := req % 2 ^ 4
          length := length % 2 ^ 24
          flags := flags % 2 ^ 3
          res := res % 2 ^ 1 } ∧
      (parse_CrudResponse (convert_to_CrudRequest 0 31 (2 ^ 24) 15 2)).length = 0 ∧
      (parse_CrudResponse (convert_to_CrudRequest 0 31 (2 ^ 24) 15 2)).res = 0 ∧
      (parse_CrudResponse (convert_to_CrudRequest 0 31 (2 ^ 24) 15 2)).req = 31 % 2 ^ 4 := by
  refine ⟨?_, ?_, ?_, ?_⟩
  · rw [parse_convert_general]
    norm_num
  · rw [parse_convert_general]
    decide
  · rw [parse_convert_general]
  · rw [parse_convert_general]
    decide

/-! ### crud_write: failure atomicity -/

/-- C1: every crud_write call, in all three cases, either succeeds returning
exactly the requested byte count, or returns -1 with the slot's directory
entry (filename, object identifier, length, position, open flag) exactly as
it was before the call; in particular every failing object-store operation
(INIT, READ, CREATE, UPDATE or DELETE) on the taken path leaves the entry
untouched. -/
theorem crud_write_no_partial_application (initFlag : Bool) (initResp : Nat)
    (entry : CrudFileAllocationType) (contents : List Nat)
    (readResp createResp deleteResp updateResp : Nat)
    (buf : Option (List Nat)) (count : Int) :
    (crud_write initFlag initResp entry contents readResp createResp
        deleteResp updateResp buf count).1 = count ∨
      ((crud_write initFlag initResp entry contents readResp createResp
          deleteResp updateResp buf count).1 = -1 ∧
        (crud_write initFlag initResp entry contents readResp createResp
          deleteResp updateResp buf count).2.1 = entry) := by
  unfold crud_write
  dsimp only
  repeat' split
  all_goals
    first
      | (left; rfl)
      | (right; exact ⟨rfl, rfl⟩)

/-- C2 counterexample: a grow-case crud_write (entry with object 3, position
2, length 4, writing 5 bytes) where the CREATE succeeds returning new object
identifier 5 and the DELETE of object 3 fails.  The call returns -1 and the
directory entry still holds the old identifier 3: the new identifier 5 has
not replaced it. -/
theorem crud_write_grow_delete_fail_counterexample :
    (crud_write true 0
        { filename := "f", object_id := 3, position := 2, length := 4,
          openFlag := true }
        [10, 11, 12, 13] 0 (5 <<< 32) 1 0 (some [1, 2, 3, 4, 5]) 5).1 = -1 ∧
      (crud_write true 0
        { filename := "f", object_id := 3, position := 2, length := 4,
          openFlag := true }
        [10, 11, 12, 13] 0 (5 <<< 32) 1 0 (some [1, 2, 3, 4, 5]) 5).2.1 =
        { filename := "f", object_id := 3, position := 2, length := 4,
          openFlag := true } ∧
      (parse_CrudResponse (5 <<< 32)).oID = 5 ∧
      (crud_write true 0
        { filename := "f", object_id := 3, position := 2, length := 4,
          openFlag := true }
        [10, 11, 12, 13] 0 (5 <<< 32) 1 0 (some [1, 2, 3, 4, 5]) 5).2.1.object_id
        ≠ 5 := by
  decide

/-- C2 amended: in the grow case, if the CREATE of the replacement object
succeeds but the DELETE of the old object fails, crud_write returns -1 and
the in-memory directory entry is left entirely unchanged: the old identifier
is still in place (the fresh object is left behind on the store but its
identifier is never recorded). -/
theorem crud_write_grow_delete_fail_entry_unchanged
    (entry : CrudFileAllocationType) (contents : List Nat)
    (readResp createResp deleteResp updateResp : Nat) (b : List Nat)
    (count : Int) (hopen : entry.openFlag = true)
    (hoid : entry.object_id ≠ 0) (hcount : 0 ≤ count)
    (hgrow : entry.length < entry.position + count.toNat)
    (hread : (parse_CrudResponse readResp).res = 0)
    (hcreate : (parse_CrudResponse createResp).res = 0)
    (hdelete : (parse_CrudResponse deleteResp).res = 1) :
    (crud_write true 0 entry contents readResp createResp deleteResp
        updateResp (some b) count).1 = -1 ∧
      (crud_write true 0 entry contents readResp createResp deleteResp
        updateResp (some b) count).2.1 = entry := by
  unfold crud_write
  simp only [hopen, hoid, hread, hcreate, hdelete]
  have h1 : ¬ (count < 0) := by omega
  have h2 : entry.position + count.toNat > entry.length := hgrow
  simp [h1, h2]

/-- Witness for the amended C2 at the counterexample's input. -/
theorem crud_write_grow_delete_fail_entry_unchanged_witness :
    (crud_write true 0
        { filename := "f", object_id := 3, position := 2, length := 4,
          openFlag := true }
        [10, 11, 12, 13] 0 (5 <<< 32) 1 0 (some [1, 2, 3, 4, 5]) 5).1 = -1 :=
  (crud_write_grow_delete_fail_entry_unchanged
    { filename := "f", object_id := 3, position := 2, length := 4,
      openFlag := true }
    [10, 11, 12, 13] 0 (5 <<< 32) 1 0 [1, 2, 3, 4, 5] 5 (by decide)
    (by decide) (by decide) (by decide) (by decide) (by decide) (by decide)).1

/-! ### crud_read -/

/-- C5: a successful crud_read on an open handle with position p and length
L copies exactly min(count, L-p) bytes of the backing object starting at
offset p, advances the position by that amount, and returns that amount;
asking for more bytes than remain is not an error: it returns L-p and leaves
the position at L. -/
theorem crud_read_copies_min_count_remaining (entry : CrudFileAllocationType)
    (readResp : Nat) (contents : List Nat) (count : Int)
    (hopen : entry.openFlag = true) (hcount : 0 ≤ count)
    (hpos : entry.position ≤ entry.length)
    (hresp : (parse_CrudResponse readResp).res = 0) :
    (crud_read true 0 entry readResp contents count).1 =
        Int.ofNat (min count.toNat (entry.length - entry.position)) ∧
      (crud_read true 0 entry readResp contents count).2.1 =
        { entry with position :=
            entry.position + min count.toNat (entry.length - entry.position) } ∧
      (crud_read true 0 entry readResp contents count).2.2 =
        (contents.drop entry.position).take
          (min count.toNat (entry.length - entry.position)) ∧
      (entry.length - entry.position < count.toNat →
        (crud_read true 0 entry readResp contents count).1 =
            Int.ofNat (entry.length - entry.position) ∧
          (crud_read true 0 entry readResp contents count).2.1.position =
            entry.length) := by
  unfold crud_read
  have h1 : ¬ (count < 0) := by omega
  simp only [hopen, hresp, h1]
  by_cases h2 : count.toNat > entry.length - entry.position
  · have hmin : min count.toNat (entry.length - entry.position) =
        entry.length - entry.position := by omega
    have hlen : entry.position + (entry.length - entry.position) =
        entry.length := by omega
    simp [h2, hmin, hlen]
  · have hmin : min count.toNat (entry.length - entry.position) =
        count.toNat := by omega
    simp only [h2]
    simp [hmin]

/-- Witness for C5: the spec's short-read example, a 10-byte object at
position 8 asked for 100 bytes. -/
theorem crud_read_copies_min_count_remaining_witness :
    (crud_read true 0
        { filename := "f", object_id := 1, position := 8, length := 10,
          openFlag := true }
        0 [0, 1, 2, 3, 4, 5, 6, 7, 8, 9] 100).1 =
      Int.ofNat (min (100 : Int).toNat (10 - 8)) :=
  (crud_read_copies_min_count_remaining
    { filename := "f", object_id := 1, position := 8, length := 10,
      openFlag := true }
    0 [0, 1, 2, 3, 4, 5, 6, 7, 8, 9] 100 (by decide) (by decide) (by decide)
    (by decide)).1

/-! ### crud_write: the in-place case -/

theorem memcpyAt_length (dst src : List Nat) (pos : Nat)
    (h : pos + src.length ≤ dst.length) :
    (memcpyAt dst pos src).length = dst.length := by
  simp [memcpyAt]
  omega

theorem memcpyAt_getElem_outside (dst src : List Nat) (pos i : Nat)
    (h : pos + src.length ≤ dst.length)
    (hi : i < pos ∨ pos + src.length ≤ i) :
    (memcpyAt dst pos src)[i]? = dst[i]? := by
  unfold memcpyAt
  rcases hi with hi | hi
  · rw [List.getElem?_append_left (by simp; omega),
      List.getElem?_append_left (by simp; omega)]
    exact List.getElem?_take_of_lt hi
  · rw [List.getElem?_append_right (by simp; omega), List.getElem?_drop]
    congr 1
    simp
    omega

/-- C8: an in-place crud_write (assigned object, position + count <= length)
that succeeds returns count, leaves the entry's object identifier, length
and filename unchanged, advances the position by count, and sends an UPDATE
for the same identifier whose payload differs from the read contents only on
the byte range [position, position + count). -/
theorem crud_write_in_place_frame (entry : CrudFileAllocationType)
    (contents : List Nat) (readResp createResp deleteResp updateResp : Nat)
    (b : List Nat) (count : Int) (hopen : entry.openFlag = true)
    (hoid : entry.object_id ≠ 0) (hcount : 0 ≤ count)
    (hfit : entry.position + count.toNat ≤ entry.length)
    (hlen : contents.length = entry.length) (hbuf : count.toNat ≤ b.length)
    (hread : (parse_CrudResponse readResp).res = 0)
    (hupdate : (parse_CrudResponse updateResp).res = 0) :
    (crud_write true 0 entry contents readResp createResp deleteResp
        updateResp (some b) count).1 = count ∧
      (crud_write true 0 entry contents readResp createResp deleteResp
        updateResp (some b) count).2.1.object_id = entry.object_id ∧
      (crud_write true 0 entry contents readResp createResp deleteResp
        updateResp (some b) count).2.1.length = entry.length ∧
      (crud_write true 0 entry contents readResp createResp deleteResp
        updateResp (some b) count).2.1.filename = entry.filename ∧
      (crud_write true 0 entry contents readResp createResp deleteResp
        updateResp (some b) count).2.1.position =
        entry.position + count.toNat ∧
      (crud_write true 0 entry contents readResp createResp deleteResp
        updateResp (some b) count).2.2 =
        [StoreOp.readOp entry.object_id entry.length,
          StoreOp.updateOp entry.object_id entry.length
            (memcpyAt contents entry.position (b.take count.toNat))] ∧
      (memcpyAt contents entry.position (b.take count.toNat)).length =
        contents.length ∧
      (∀ i, i < entry.position ∨ entry.position + count.toNat ≤ i →
        (memcpyAt contents entry.position (b.take count.toNat))[i]? =
          contents[i]?) := by
  have htake : (b.take count.toNat).length = count.toNat := by
    simp
    omega
  have hfit2 : entry.position + (b.take count.toNat).length ≤
      contents.length := by
    rw [htake, hlen]
    exact hfit
  have hngrow : ¬ (entry.position + count.toNat > entry.length) := by omega
  have hc : ¬ (count < 0) := by omega
  unfold crud_write
  simp only [hopen, hoid, hread, hupdate, hngrow, hc]
  refine ⟨by simp, by simp, by simp, by simp, by simp, by simp, ?_, ?_⟩
  · exact memcpyAt_length _ _ _ hfit2
  · intro i hi
    refine memcpyAt_getElem_outside _ _ _ _ hfit2 ?_
    rw [htake]
    exact hi

/-- Witness for C8: write 2 bytes at position 1 of a 4-byte object. -/
theorem crud_write_in_place_frame_witness :
    (crud_write true 0
        { filename := "f", object_id := 3, position := 1, length := 4,
          openFlag := true }
        [10, 11, 12, 13] 0 (7 <<< 32) 0 0 (some [1, 2]) 2).1 = 2 :=
  (crud_write_in_place_frame
    { filename := "f", object_id := 3, position := 1, length := 4,
      openFlag := true }
    [10, 11, 12, 13] 0 (7 <<< 32) 0 0 [1, 2] 2 (by decide) (by decide)
    (by decide) (by decide) (by decide) (by decide) (by decide)
    (by decide)).1

/-! ### crud_format -/

/-- C6 counterexample: with a one-slot table holding an entry, a successful
FORMAT followed by a failing CREATE makes crud_format return -1 with the
in-memory table already reset to all-empty slots: the reset is partially
applied, contradicting the claim that the table is not left reset when the
CREATE fails. -/
theorem crud_format_create_fail_counterexample :
    crud_format true 0 0 1
        [{ filename := "a", object_id := 1, position := 2, length := 3,
           openFlag := true }] =
      (-1, [emptyEntry], true) ∧
      [emptyEntry] ≠
        [{ filename := "a", object_id := 1, position := 2, length := 3,
           openFlag := true }] := by
  constructor
  · rfl
  · decide

/-- C6 amended: crud_format fails fast with no state change when the FORMAT
request fails, but when the CREATE of the directory object fails after the
reset, it returns -1 with the in-memory table already reset to all-empty
slots; on full success it returns 0 with the reset table. -/
theorem crud_format_failure_behavior (formatResp createResp : Nat)
    (table : List CrudFileAllocationType) :
    ((parse_CrudResponse formatResp).res = 1 →
        crud_format true 0 formatResp createResp table = (-1, table, true)) ∧
      ((parse_CrudResponse formatResp).res = 0 →
        (parse_CrudResponse createResp).res = 1 →
        crud_format true 0 formatResp createResp table =
          (-1, table.map fun _ => emptyEntry, true)) ∧
      ((parse_CrudResponse formatResp).res = 0 →
        (parse_CrudResponse createResp).res = 0 →
        crud_format true 0 formatResp createResp table =
          (0, table.map fun _ => emptyEntry, true)) := by
  refine ⟨fun h1 => ?_, fun h1 h2 => ?_, fun h1 h2 => ?_⟩
  · simp [crud_format, h1]
  · simp [crud_format, h1, h2]
  · simp [crud_format, h1, h2]

/-- Witness for the amended C6: a failing FORMAT leaves the table alone. -/
theorem crud_format_failure_behavior_witness :
    crud_format true 0 1 0 [emptyEntry] = (-1, [emptyEntry], true) :=
  (crud_format_failure_behavior 1 0 [emptyEntry]).1 (by decide)

/-! ### crud_unmount -/

/-- C7 counterexample: starting from an uninitialized session (InitFlag
clear), a single successful crud_open of a fresh name sets InitFlag, and a
subsequent crud_unmount passes the precondition check and succeeds (returns
0, issuing UPDATE then CLOSE) although no mount or format was ever
performed. -/
theorem crud_unmount_succeeds_after_open_only :
    crud_open false 0 32 [emptyEntry] "a" =
        Except.ok (0,
          [{ filename := "a", object_id := 0, position := 0, length := 0,
             openFlag := true }], true) ∧
      crud_unmount true
          [{ filename := "a", object_id := 0, position := 0, length := 0,
             openFlag := true }] 0 0 =
        (0,
          [UnmountStep.updateStep
            [{ filename := "a", object_id := 0, position := 0, length := 0,
               openFlag := true }], UnmountStep.closeStep]) := by
  constructor
  · rfl
  · rfl

/-- C7 amended: crud_unmount returns -1 without issuing UPDATE or CLOSE
exactly when InitFlag is still clear, that is, when no prior operation of
the session performed the lazy CRUD_INIT; any lazily connecting operation
(open, close, read, write, seek, mount or format) sets the same flag, so a
prior open alone already lets crud_unmount pass the check and, with the
UPDATE and CLOSE succeeding, return 0. -/
theorem crud_unmount_initflag_gate (table : List CrudFileAllocationType)
    (updateResp closeResp : Nat) :
    crud_unmount false table updateResp closeResp = (-1, []) ∧
      ((parse_CrudResponse updateResp).res = 0 →
        (parse_CrudResponse closeResp).res = 0 →
        crud_unmount true table updateResp closeResp =
          (0, [UnmountStep.updateStep table, UnmountStep.closeStep])) := by
  refine ⟨rfl, fun h1 h2 => ?_⟩
  simp [crud_unmount, h1, h2]

/-- Witness for the amended C7. -/
theorem crud_unmount_initflag_gate_witness :
    crud_unmount true [] 0 0 =
      (0, [UnmountStep.updateStep [], UnmountStep.closeStep]) :=
  (crud_unmount_initflag_gate [] 0 0).2 (by decide) (by decide)

/-! ### crud_open on a full table -/

theorem findEmptySlotAux_full (table : List CrudFileAllocationType)
    (h : ∀ e ∈ table, e.filename ≠ "") (i : Nat) :
    findEmptySlotAux table i = Except.error () := by
  induction table generalizing i with
  | nil => rfl
  | cons e rest ih =>
    have he : e.filename ≠ "" := h e (by simp)
    simp only [findEmptySlotAux, he, if_neg]
    exact ih (fun e' he' => h e' (by simp [he'])) (i + 1)

/-- C3 (the code as written): when every slot of the table holds a non-empty
name and the path matches none of them, crud_open's empty-slot search loop
runs off the end of the table — the guard reads
crud_file_table[CRUD_MAX_TOTAL_FILES], outside the array (undefined
behavior, modelled as Except.error) — instead of stopping at the bound and
returning the table-full -1. -/
theorem crud_open_full_table_reads_past_table_end
    (table : List CrudFileAllocationType) (path : String)
    (maxPathLength : Nat) (hfull : ∀ e ∈ table, e.filename ≠ "")
    (hfresh : ∀ e ∈ table, e.filename ≠ path) (hp1 : 0 < path.length)
    (hp2 : path.length ≤ maxPathLength) :
    crud_open true 0 maxPathLength table path = Except.error () := by
  unfold crud_open
  have hvalid : ¬ (path.length > maxPathLength ∨ path.length = 0) := by omega
  have hidx : (table.findIdx fun e => e.filename = path) = table.length := by
    rw [List.findIdx_eq_length]
    intro e he
    simp [hfresh e he]
  simp only [hvalid, hidx, findEmptySlotAux_full table hfull 0]
  simp

/-- Witness for C3's theorem: a one-slot table holding "a", opening "b". -/
theorem crud_open_full_table_reads_past_table_end_witness :
    crud_open true 0 8
        [{ filename := "a", object_id := 0, position := 0, length := 0,
           openFlag := false }] "b" = Except.error () :=
  crud_open_full_table_reads_past_table_end
    [{ filename := "a", object_id := 0, position := 0, length := 0,
       openFlag := false }] "b" 8 (by decide) (by decide) (by decide)
    (by decide)

/-! ### The position <= length invariant -/

set_option maxHeartbeats 2000000 in
/-- C10: every public operation preserves 0 <= position <= length on every
directory slot it can touch: open (both the new-slot and the reopen path),
close, seek, read, write (all three cases, success or failure) and format
leave every affected entry with position at most length, provided every
entry satisfied that bound before the call. -/
theorem crud_ops_preserve_position_le_length (initFlag : Bool)
    (initResp maxPathLength : Nat) (table : List CrudFileAllocationType)
    (path : String) (entry : CrudFileAllocationType) (loc : Nat)
    (contents contents2 : List Nat)
    (readResp createResp deleteResp updateResp : Nat)
    (readResp2 formatResp createResp2 : Nat) (buf : Option (List Nat))
    (count count2 : Int)
    (htable : ∀ e ∈ table, e.position ≤ e.length)
    (hentry : entry.position ≤ entry.length) :
    (∀ r, crud_open initFlag initResp maxPathLength table path =
        Except.ok r → ∀ e ∈ r.2.1, e.position ≤ e.length) ∧
      (crud_close initFlag initResp entry).2.position ≤
        (crud_close initFlag initResp entry).2.length ∧
      (crud_seek initFlag initResp entry loc).2.position ≤
        (crud_seek initFlag initResp entry loc).2.length ∧
      (crud_read initFlag initResp entry readResp2 contents2
          count2).2.1.position ≤
        (crud_read initFlag initResp entry readResp2 contents2
          count2).2.1.length ∧
      (crud_write initFlag initResp entry contents readResp createResp
          deleteResp updateResp buf count).2.1.position ≤
        (crud_write initFlag initResp entry contents readResp createResp
          deleteResp updateResp buf count).2.1.length ∧
      ∀ e ∈ (crud_format initFlag initResp formatResp createResp2
          table).2.1, e.position ≤ e.length := by
  refine ⟨?_, ?_, ?_, ?_, ?_, ?_⟩
  · intro r hr e he
    unfold crud_open at hr
    dsimp only at hr
    repeat' split at hr
    all_goals
      first
        | (injection hr with h
           subst h
           dsimp only at he
           first
             | exact htable e he
             | (rcases List.mem_or_eq_of_mem_set he with h2 | h2
                · exact htable e h2
                · subst h2
                  simp))
        | (cases hr)
  · unfold crud_close
    repeat' split
    all_goals exact hentry
  · unfold crud_seek
    repeat' split
    all_goals dsimp only
    all_goals omega
  · unfold crud_read
    dsimp only
    repeat' split
    all_goals dsimp only
    all_goals omega
  · unfold crud_write
    dsimp only
    repeat' split
    all_goals dsimp only
    all_goals omega
  · intro e he
    unfold crud_format at he
    repeat' split at he
    all_goals dsimp only at he
    all_goals
      first
        | exact htable e he
        | (rcases List.mem_map.mp he with ⟨e', _, h2⟩
           subst h2
           decide)

/-- Witness for C10: its seek component at a concrete slot. -/
theorem crud_ops_preserve_position_le_length_witness :
    (crud_seek true 0
        { filename := "a", object_id := 1, position := 2, length := 5,
          openFlag := true } 3).2.position ≤
      (crud_seek true 0
        { filename := "a", object_id := 1, position := 2, length := 5,
          openFlag := true } 3).2.length :=
  (crud_ops_preserve_position_le_length true 0 32 [] "a"
    { filename := "a", object_id := 1, position := 2, length := 5,
      openFlag := true }
    3 [] [] 0 0 0 0 0 0 0 none 0 0 (by simp) (by decide)).2.2.1

end CrudDriver
